import Mathlib

/-!
Verification of the Camoufox connector Rust example client
(`src/examples/rust/src/main.rs`).

The program is a demonstration HTTP client with three read-only
operations (`check_health`, `get_next_endpoint`, `get_stats`) and a
demonstration driver (`main`) that sequences them.  We embed it
shallowly:

* JSON values are an inductive type; numbers are rationals (serde_json
  parses every JSON number; non-integers and out-of-i32-range integers
  are then rejected by the typed `i32` deserializer, which we model in
  `decodeI32`).
* The network is a function `String → HttpResult` from request URL to
  what the transport layer yields: a transport failure, a body that is
  not valid JSON, or a parsed JSON body.
* The process environment is explicit: reading `CAMOUFOX_API` yields an
  `Option String`.  The Rust code calls `env::var` once per operation,
  so the driver is parametrised by the value observed at each of its
  successive environment reads (`envAt : Nat → Option String`); read 0
  is the one in `main` itself, read 1 the one inside `check_health`,
  reads 2–6 the five `get_next_endpoint` calls, read 7 `get_stats`.
* Each operation returns the list of request URLs it issued, the stdout
  lines it printed, and its `Result`, with the two error kinds of the
  design: `transportError` (the `send()` step failed) and `decodeError`
  (the `json()` step failed).
-/

/-- A JSON value.  Numbers are modelled as rationals: serde_json parses
any JSON number, and integrality / range are checked only by the typed
field deserializer. -/
inductive Json where
  | str (s : String)
  | num (q : Rat)
  | bool (b : Bool)
  | null
  | arr (elems : List Json)
  | obj (fields : List (String × Json))

/-- The two error kinds of the design: network-layer failure and
invalid-JSON / wrong-shape failure. -/
inductive ClientError where
  | transportError
  | decodeError
deriving DecidableEq, Repr

/-- What the transport layer yields for one GET request: `transportFail`
models `send().await` failing, `invalidBody` a response whose body is
not valid JSON, `jsonBody j` a response whose body parses as `j`. -/
inductive HttpResult where
  | transportFail
  | invalidBody
  | jsonBody (j : Json)

/-- A server behaviour: what each request URL gets back. -/
def Server : Type := String → HttpResult

/-- Rust `struct EndpointResponse`: one `endpoint: String` field. -/
structure EndpointResponse where
  endpoint : String
deriving DecidableEq, Repr

/-- Rust `struct HealthResponse`: one `status: String` field. -/
structure HealthResponse where
  status : String
deriving DecidableEq, Repr

/-- Rust `struct StatsResponse`: one `String` and four `i32` fields.  The
numeric fields are `Int`s; the decoder (`decodeI32`) only ever produces
values in the `i32` range. -/
structure StatsResponse where
  mode : String
  total_instances : Int
  healthy_instances : Int
  active_connections : Int
  total_connections : Int
deriving DecidableEq, Repr

/-- First binding of a key in a JSON object's field list. -/
def lookupField (fields : List (String × Json)) (key : String) : Option Json :=
  match fields with
  | [] => none
  | (k, v) :: rest => if k = key then some v else lookupField rest key

/-- The binding of `key` when it occurs exactly once.  serde's derived
`Deserialize` errors with "duplicate field" when a named field occurs
twice, and with "missing field" when it occurs zero times; both are
`none` here. -/
def getUnique (fields : List (String × Json)) (key : String) : Option Json :=
  match fields.filter (fun p => p.1 = key) with
  | [(_, v)] => some v
  | _ => none

/-- Deserializing a Rust `String` field: only a JSON string is accepted. -/
def decodeString : Json → Option String
  | .str s => some s
  | _ => none

/-- Deserializing a Rust `i32` field: only an integer number within
`[-2^31, 2^31 - 1]` is accepted; anything else is a decode error (serde
reports "invalid type" for non-integers and "invalid value: integer out
of range" for out-of-range integers — never truncation or wrapping). -/
def decodeI32 : Json → Option Int
  | .num q =>
      if q.den = 1 ∧ -(2 ^ 31) ≤ q.num ∧ q.num ≤ 2 ^ 31 - 1 then some q.num else none
  | _ => none

/-- Derived `Deserialize` for `HealthResponse`: a JSON object whose
`status` field (present exactly once) is a string; unknown fields are
ignored (no `deny_unknown_fields`). -/
def decodeHealthResponse : Json → Option HealthResponse
  | .obj fields => ((getUnique fields "status").bind decodeString).map HealthResponse.mk
  | _ => none

/-- Derived `Deserialize` for `EndpointResponse`. -/
def decodeEndpointResponse : Json → Option EndpointResponse
  | .obj fields => ((getUnique fields "endpoint").bind decodeString).map EndpointResponse.mk
  | _ => none

/-- Derived `Deserialize` for `StatsResponse`: all five named fields
must be present (once each) with the right type; unknown fields are
ignored. -/
def decodeStatsResponse : Json → Option StatsResponse
  | .obj fields => do
      let m ← (getUnique fields "mode").bind decodeString
      let t ← (getUnique fields "total_instances").bind decodeI32
      let h ← (getUnique fields "healthy_instances").bind decodeI32
      let a ← (getUnique fields "active_connections").bind decodeI32
      let c ← (getUnique fields "total_connections").bind decodeI32
      pure ⟨m, t, h, a, c⟩
  | _ => none

/-- Rust `fn get_api_url()`: the value of `CAMOUFOX_API` if set,
otherwise `"http://localhost:8080"`.  The environment read is explicit:
`env` is the variable's value at the moment of the call. -/
def get_api_url (env : Option String) : String :=
  match env with
  | some v => v
  | none => "http://localhost:8080"

/-- Result of one client operation: the request URLs it issued (in
order), the stdout lines it printed, and its `Result`. -/
structure OpResult (α : Type) where
  requests : List String
  stdout : List String
  result : Except ClientError α

/-- The `println!("Server health: {:?}", response)` line of
`check_health` (Rust `Debug` formatting of `HealthResponse`). -/
def healthDebugLine (r : HealthResponse) : String :=
  "Server health: HealthResponse \x7b status: \"" ++ r.status ++ "\" \x7d"

/-- Rust `async fn check_health`: GET `{base}/health`, decode a
`HealthResponse`, print it, return `status == "healthy"`.  A `send`
failure is a transport error; a body that is not valid JSON or not of
the expected shape is a decode error; both propagate via `?` (before
the `println!`). -/
def check_health (env : Option String) (server : Server) : OpResult Bool :=
  let api_url := get_api_url env
  let url := api_url ++ "/health"
  match server url with
  | .transportFail => ⟨[url], [], .error .transportError⟩
  | .invalidBody => ⟨[url], [], .error .decodeError⟩
  | .jsonBody j =>
      match decodeHealthResponse j with
      | none => ⟨[url], [], .error .decodeError⟩
      | some r => ⟨[url], [healthDebugLine r], .ok (r.status == "healthy")⟩

/-- Rust `async fn get_next_endpoint`: GET `{base}/next`, decode an
`EndpointResponse`, return its `endpoint` field. -/
def get_next_endpoint (env : Option String) (server : Server) : OpResult String :=
  let api_url := get_api_url env
  let url := api_url ++ "/next"
  match server url with
  | .transportFail => ⟨[url], [], .error .transportError⟩
  | .invalidBody => ⟨[url], [], .error .decodeError⟩
  | .jsonBody j =>
      match decodeEndpointResponse j with
      | none => ⟨[url], [], .error .decodeError⟩
      | some r => ⟨[url], [], .ok r.endpoint⟩

/-- Rust `async fn get_stats`: GET `{base}/stats`, decode a `StatsResponse`,
return it whole. -/
def get_stats (env : Option String) (server : Server) : OpResult StatsResponse :=
  let api_url := get_api_url env
  let url := api_url ++ "/stats"
  match server url with
  | .transportFail => ⟨[url], [], .error .transportError⟩
  | .invalidBody => ⟨[url], [], .error .decodeError⟩
  | .jsonBody j =>
      match decodeStatsResponse j with
      | none => ⟨[url], [], .error .decodeError⟩
      | some r => ⟨[url], [], .ok r⟩

/-- The `println!("Request {}: Got endpoint {}", i, endpoint)` line of
`pool_example`'s loop. -/
def requestLine (i : Nat) (endpoint : String) : String :=
  "Request " ++ toString i ++ ": Got endpoint " ++ endpoint

/-- The five field lines `stats_example` prints. -/
def statsLines (stats : StatsResponse) : List String :=
  ["Mode: " ++ stats.mode,
   "Total instances: " ++ toString stats.total_instances,
   "Healthy instances: " ++ toString stats.healthy_instances,
   "Active connections: " ++ toString stats.active_connections,
   "Total connections: " ++ toString stats.total_connections]

/-- Body of `pool_example`'s `for i in 1..=5` loop, starting at index
`i` with `remaining` iterations left; `readIdx` is the index of the
next environment read.  Each iteration awaits `get_next_endpoint` and
prints `Request {i}: Got endpoint {endpoint}`; a failure propagates via
`?`, aborting the loop. -/
def poolLoop (envAt : Nat → Option String) (server : Server)
    (i : Nat) (remaining : Nat) (readIdx : Nat) :
    List String × List String × Except ClientError Unit :=
  match remaining with
  | 0 => ([], [], .ok ())
  | n + 1 =>
      let r := get_next_endpoint (envAt readIdx) server
      match r.result with
      | .error e => (r.requests, r.stdout, .error e)
      | .ok endpoint =>
          let rest := poolLoop envAt server (i + 1) n (readIdx + 1)
          (r.requests ++ rest.1,
           r.stdout ++ requestLine i endpoint :: rest.2.1,
           rest.2.2)

/-- Rust `async fn pool_example`: print a header, then call
`get_next_endpoint` five times in strict sequence (1-based indices 1–5),
printing each result; `readIdx` is the index of the first of its five
environment reads. -/
def pool_example (envAt : Nat → Option String) (server : Server) (readIdx : Nat) :
    List String × List String × Except ClientError Unit :=
  let body := poolLoop envAt server 1 5 readIdx
  (body.1, "\n=== Pool Example ===\n" :: body.2.1, body.2.2)

/-- Rust `async fn stats_example`: print a header, call `get_stats` once,
print the five fields. -/
def stats_example (env : Option String) (server : Server) :
    List String × List String × Except ClientError Unit :=
  let r := get_stats env server
  match r.result with
  | .error e => (r.requests, "\n=== Stats Example ===\n" :: r.stdout, .error e)
  | .ok stats =>
      (r.requests,
       "\n=== Stats Example ===\n" :: r.stdout ++ statsLines stats,
       .ok ())

/-- Outcome of one whole process run: request URLs issued in order,
stdout lines, stderr lines, and the process exit code. -/
structure RunResult where
  requests : List String
  stdout : List String
  stderr : List String
  exitCode : Nat

/-- The `eprintln!` diagnostics of `main`'s `Err` arm.  The final line
interpolates the error's `Display` text, which comes from `reqwest` and
is outside the modelled code; we render it from the error kind. -/
def connectErrLines (api_url : String) (e : ClientError) : List String :=
  ["Cannot connect to Camoufox Connector at " ++ api_url,
   "Please start the server first:",
   "  camoufox-connector --mode pool --pool-size 3",
   "\nError: " ++ (match e with
     | .transportError => "transport error"
     | .decodeError => "decode error")]

/-- What the Rust runtime prints to stderr when `main` returns `Err`
(followed by exit code 1). -/
def runtimeErrLine (e : ClientError) : String :=
  "Error: " ++ (match e with
    | .transportError => "transport error"
    | .decodeError => "decode error")

/-- Closing stdout lines of a fully successful run. -/
def finalLines : List String :=
  ["\n✓ All examples completed successfully!\n",
   "Note: This example shows API usage. For full browser automation,",
   "connect to the WebSocket endpoint using a compatible client."]

/-- Continuation of `main` after the health gate passed (`Ok(true)`):
run `pool_example` then `stats_example`; a failure in either propagates
via `?` out of `main` (exit code 1), success exits 0. -/
def mainHealthy (envAt : Nat → Option String) (server : Server)
    (reqs1 out1 : List String) : RunResult :=
  let p := pool_example envAt server 2
  match p.2.2 with
  | .error e => ⟨reqs1 ++ p.1, out1 ++ p.2.1, [runtimeErrLine e], 1⟩
  | .ok _ =>
      let s := stats_example (envAt 7) server
      match s.2.2 with
      | .error e => ⟨reqs1 ++ p.1 ++ s.1, out1 ++ p.2.1 ++ s.2.1, [runtimeErrLine e], 1⟩
      | .ok _ => ⟨reqs1 ++ p.1 ++ s.1, out1 ++ p.2.1 ++ s.2.1 ++ finalLines, [], 0⟩

/-- Rust `async fn main`: resolve `api_url` (environment read 0, used only in
the connection-failure diagnostic), run the health gate, and branch:
`Ok(true)` continues into the examples, `Ok(false)` and `Err(_)` print a
diagnostic and `std::process::exit(1)` before any further request.
(Named `runDemo` here because `main` is reserved in Lean.) -/
def runDemo (envAt : Nat → Option String) (server : Server) : RunResult :=
  let api_url := get_api_url (envAt 0)
  let h := check_health (envAt 1) server
  match h.result with
  | .ok true => mainHealthy envAt server h.requests (h.stdout ++ ["Server is healthy!"])
  | .ok false =>
      ⟨h.requests, h.stdout,
       ["Server is not healthy. Please start the connector first."], 1⟩
  | .error e => ⟨h.requests, h.stdout, connectErrLines api_url e, 1⟩

/-- Binding an option through a fallible function succeeds exactly when
the option holds a value the function accepts. -/
theorem bind_isSome_iff {α β : Type} (o : Option α) (f : α → Option β) :
    (o.bind f).isSome ↔ ∃ a, o = some a ∧ (f a).isSome := by
  cases o <;> simp

/-- On an object whose keys are pairwise distinct, serde's
unique-occurrence field access coincides with plain first-match lookup. -/
theorem getUnique_eq_lookupField (fields : List (String × Json)) (key : String)
    (hnd : (fields.map Prod.fst).Nodup) :
    getUnique fields key = lookupField fields key := by
  induction fields with
  | nil => rfl
  | cons p rest ih =>
      obtain ⟨k, v⟩ := p
      simp only [List.map_cons, List.nodup_cons] at hnd
      by_cases hk : k = key
      · subst hk
        have hrest : rest.filter (fun p => decide (p.1 = k)) = [] := by
          refine List.filter_eq_nil_iff.mpr ?_
          intro a ha
          simp only [decide_eq_true_eq]
          intro hak
          exact hnd.1 (hak ▸ List.mem_map_of_mem Prod.fst ha)
        simp [getUnique, lookupField, List.filter_cons, hrest]
      · have h1 : getUnique ((k, v) :: rest) key = getUnique rest key := by
          simp [getUnique, List.filter_cons, hk]
        have h2 : lookupField ((k, v) :: rest) key = lookupField rest key := by
          simp [lookupField, hk]
        rw [h1, h2]
        exact ih hnd.2

/-- Dropping entries whose keys a predicate rejects does not change the
unique-occurrence access of a key the predicate keeps. -/
theorem getUnique_filter_of_mem (fields : List (String × Json)) (p : String → Bool)
    (key : String) (hp : p key = true) :
    getUnique (fields.filter (fun q => p q.1)) key = getUnique fields key := by
  unfold getUnique
  rw [List.filter_filter]
  congr 1
  refine List.filter_congr ?_
  intro a _
  by_cases hak : a.1 = key
  · simp [hak, hp]
  · simp [hak]

/-- Whatever the server answers, `check_health` issues exactly the one
request `{base}/health`. -/
theorem check_health_requests (env : Option String) (server : Server) :
    (check_health env server).requests = [get_api_url env ++ "/health"] := by
  simp only [check_health]
  split <;> first | rfl | (split <;> rfl)

/-- Whatever the server answers, `get_next_endpoint` issues exactly the
one request `{base}/next`. -/
theorem get_next_endpoint_requests (env : Option String) (server : Server) :
    (get_next_endpoint env server).requests = [get_api_url env ++ "/next"] := by
  simp only [get_next_endpoint]
  split <;> first | rfl | (split <;> rfl)

/-- Whatever the server answers, `get_stats` issues exactly the one
request `{base}/stats`. -/
theorem get_stats_requests (env : Option String) (server : Server) :
    (get_stats env server).requests = [get_api_url env ++ "/stats"] := by
  simp only [get_stats]
  split <;> first | rfl | (split <;> rfl)

/-- C8: the base URL used for every request equals the value of the
environment variable `CAMOUFOX_API` when it is set, and equals the
literal string `"http://localhost:8080"` when it is unset. -/
theorem base_url_from_env_or_default :
    (∀ s, get_api_url (some s) = s) ∧ get_api_url none = "http://localhost:8080" :=
  ⟨fun _ => rfl, rfl⟩

/-- C3: for every successfully decoded health response, `check_health`
returns `Ok` of the boolean `status == "healthy"` — true exactly when
the decoded status field is the string `"healthy"`, and false (not an
error) for any other status string. -/
theorem checkHealth_true_iff_status_healthy (env : Option String) (server : Server)
    (j : Json) (r : HealthResponse)
    (hj : server (get_api_url env ++ "/health") = .jsonBody j)
    (hd : decodeHealthResponse j = some r) :
    (check_health env server).result = .ok (r.status == "healthy") ∧
    ((r.status == "healthy") = true ↔ r.status = "healthy") := by
  constructor
  · simp only [check_health, hj, hd]
  · exact beq_iff_eq

/-- A server whose health status is the non-"healthy" string
`"degraded"`. -/
def serverDegraded : Server := fun _ => .jsonBody (.obj [("status", .str "degraded")])

/-- C3 witness: against a server reporting status `"degraded"`,
`check_health` returns `Ok false`, not an error. -/
theorem checkHealth_true_iff_status_healthy_witness :
    (check_health none serverDegraded).result = .ok false :=
  (checkHealth_true_iff_status_healthy none serverDegraded
    (.obj [("status", .str "degraded")]) ⟨"degraded"⟩ rfl rfl).1

/-- C5: for every successfully decoded `/next` response,
`get_next_endpoint` returns exactly the decoded `endpoint` field,
unmodified; and the decoder accepts any string there, with no
client-side validation of URL shape. -/
theorem nextEndpoint_verbatim (env : Option String) (server : Server)
    (j : Json) (r : EndpointResponse)
    (hj : server (get_api_url env ++ "/next") = .jsonBody j)
    (hd : decodeEndpointResponse j = some r) :
    (get_next_endpoint env server).result = .ok r.endpoint ∧
    (∀ s : String, decodeEndpointResponse (.obj [("endpoint", .str s)]) = some ⟨s⟩) := by
  constructor
  · simp only [get_next_endpoint, hj, hd]
  · intro s; rfl

/-- A server whose `/next` endpoint field is not a URL at all. -/
def serverOddEndpoint : Server :=
  fun _ => .jsonBody (.obj [("endpoint", .str "definitely not a url ###")])

/-- C5 witness: a non-URL endpoint string is returned byte for byte. -/
theorem nextEndpoint_verbatim_witness :
    (get_next_endpoint none serverOddEndpoint).result = .ok "definitely not a url ###" :=
  (nextEndpoint_verbatim none serverOddEndpoint
    (.obj [("endpoint", .str "definitely not a url ###")])
    ⟨"definitely not a url ###"⟩ rfl rfl).1

/-- C6: for every successfully decoded `/stats` response, `get_stats`
returns the whole decoded record with its five fields verbatim; and the
decoder accepts any in-range field values with no cross-field
validation — in particular nothing relates `healthy_instances` to
`total_instances`. -/
theorem getStats_verbatim_no_validation (env : Option String) (server : Server)
    (j : Json) (r : StatsResponse)
    (hj : server (get_api_url env ++ "/stats") = .jsonBody j)
    (hd : decodeStatsResponse j = some r) :
    (get_stats env server).result = .ok r ∧
    (∀ (m : String) (t h a c : Int),
      -(2 ^ 31) ≤ t → t ≤ 2 ^ 31 - 1 → -(2 ^ 31) ≤ h → h ≤ 2 ^ 31 - 1 →
      -(2 ^ 31) ≤ a → a ≤ 2 ^ 31 - 1 → -(2 ^ 31) ≤ c → c ≤ 2 ^ 31 - 1 →
      decodeStatsResponse (.obj
        [("mode", .str m), ("total_instances", .num (t : Rat)),
         ("healthy_instances", .num (h : Rat)), ("active_connections", .num (a : Rat)),
         ("total_connections", .num (c : Rat))]) = some ⟨m, t, h, a, c⟩) := by
  constructor
  · simp only [get_stats, hj, hd]
  · intro m t h a c h1 h2 h3 h4 h5 h6 h7 h8
    norm_num at h1 h2 h3 h4 h5 h6 h7 h8
    simp [decodeStatsResponse, getUnique, decodeString, decodeI32,
      h1, h2, h3, h4, h5, h6, h7, h8]

/-- A server reporting more healthy instances (5) than total
instances (3). -/
def serverStatsSkewed : Server :=
  fun _ => .jsonBody (.obj
    [("mode", .str "pool"), ("total_instances", .num ((3 : Int) : Rat)),
     ("healthy_instances", .num ((5 : Int) : Rat)), ("active_connections", .num ((1 : Int) : Rat)),
     ("total_connections", .num ((7 : Int) : Rat))])

/-- C6 witness: a response with `healthy_instances` (5) greater than
`total_instances` (3) is returned as-is, not rejected. -/
theorem getStats_verbatim_no_validation_witness :
    (get_stats none serverStatsSkewed).result = .ok ⟨"pool", 3, 5, 1, 7⟩ ∧ (5 : Int) > 3 :=
  ⟨(getStats_verbatim_no_validation none serverStatsSkewed
      (.obj [("mode", .str "pool"), ("total_instances", .num ((3 : Int) : Rat)),
        ("healthy_instances", .num ((5 : Int) : Rat)), ("active_connections", .num ((1 : Int) : Rat)),
        ("total_connections", .num ((7 : Int) : Rat))])
      ⟨"pool", 3, 5, 1, 7⟩ rfl (by decide)).1, by decide⟩

/-- C4: each of the three operations issues exactly one request (no
internal retry) and either returns its typed result or fails with
exactly one of the two error kinds, propagated unmodified: a transport
failure yields `transportError`, an invalid or wrong-shaped body yields
`decodeError`, and a decodable body yields the typed result — no
partial success and no silent fallback value. -/
theorem ops_error_taxonomy (env : Option String) (server : Server) :
    ((check_health env server).requests = [get_api_url env ++ "/health"] ∧
     (server (get_api_url env ++ "/health") = .transportFail →
        (check_health env server).result = .error .transportError) ∧
     (server (get_api_url env ++ "/health") = .invalidBody →
        (check_health env server).result = .error .decodeError) ∧
     (∀ j, server (get_api_url env ++ "/health") = .jsonBody j →
        decodeHealthResponse j = none →
        (check_health env server).result = .error .decodeError) ∧
     (∀ j r, server (get_api_url env ++ "/health") = .jsonBody j →
        decodeHealthResponse j = some r →
        (check_health env server).result = .ok (r.status == "healthy"))) ∧
    ((get_next_endpoint env server).requests = [get_api_url env ++ "/next"] ∧
     (server (get_api_url env ++ "/next") = .transportFail →
        (get_next_endpoint env server).result = .error .transportError) ∧
     (server (get_api_url env ++ "/next") = .invalidBody →
        (get_next_endpoint env server).result = .error .decodeError) ∧
     (∀ j, server (get_api_url env ++ "/next") = .jsonBody j →
        decodeEndpointResponse j = none →
        (get_next_endpoint env server).result = .error .decodeError) ∧
     (∀ j r, server (get_api_url env ++ "/next") = .jsonBody j →
        decodeEndpointResponse j = some r →
        (get_next_endpoint env server).result = .ok r.endpoint)) ∧
    ((get_stats env server).requests = [get_api_url env ++ "/stats"] ∧
     (server (get_api_url env ++ "/stats") = .transportFail →
        (get_stats env server).result = .error .transportError) ∧
     (server (get_api_url env ++ "/stats") = .invalidBody →
        (get_stats env server).result = .error .decodeError) ∧
     (∀ j, server (get_api_url env ++ "/stats") = .jsonBody j →
        decodeStatsResponse j = none →
        (get_stats env server).result = .error .decodeError) ∧
     (∀ j r, server (get_api_url env ++ "/stats") = .jsonBody j →
        decodeStatsResponse j = some r →
        (get_stats env server).result = .ok r)) := by
  refine ⟨⟨check_health_requests env server, ?_, ?_, ?_, ?_⟩,
          ⟨get_next_endpoint_requests env server, ?_, ?_, ?_, ?_⟩,
          ⟨get_stats_requests env server, ?_, ?_, ?_, ?_⟩⟩
  · intro h; simp only [check_health, h]
  · intro h; simp only [check_health, h]
  · intro j h hd; simp only [check_health, h, hd]
  · intro j r h hd; simp only [check_health, h, hd]
  · intro h; simp only [get_next_endpoint, h]
  · intro h; simp only [get_next_endpoint, h]
  · intro j h hd; simp only [get_next_endpoint, h, hd]
  · intro j r h hd; simp only [get_next_endpoint, h, hd]
  · intro h; simp only [get_stats, h]
  · intro h; simp only [get_stats, h]
  · intro j h hd; simp only [get_stats, h, hd]
  · intro j r h hd; simp only [get_stats, h, hd]

/-- C1: when the initial health check does not return `Ok(true)` —
whether it returned `Ok(false)` (status not `"healthy"`) or failed with
either error kind — the demonstration driver exits with status 1 having
issued only the single `/health` request: no `/next` and no `/stats`
request is ever made. -/
theorem health_gate_blocks_requests (envAt : Nat → Option String) (server : Server)
    (h : (check_health (envAt 1) server).result ≠ .ok true) :
    (runDemo envAt server).exitCode = 1 ∧
    (runDemo envAt server).requests = [get_api_url (envAt 1) ++ "/health"] := by
  have hreq := check_health_requests (envAt 1) server
  unfold runDemo
  rcases hres : (check_health (envAt 1) server).result with e | b
  · simp [hres, hreq]
  · cases b
    · simp [hres, hreq]
    · exact absurd hres h

/-- A server answering every request with status `"unhealthy"`. -/
def serverUnhealthy : Server := fun _ => .jsonBody (.obj [("status", .str "unhealthy")])

/-- C1 witness: against a server returning status `"unhealthy"`, the
run exits 1 after the one `/health` request. -/
theorem health_gate_blocks_requests_witness :
    (runDemo (fun _ => none) serverUnhealthy).exitCode = 1 ∧
    (runDemo (fun _ => none) serverUnhealthy).requests = ["http://localhost:8080/health"] :=
  health_gate_blocks_requests (fun _ => none) serverUnhealthy (by
    rw [show (check_health ((fun _ => none) 1) serverUnhealthy).result = Except.ok false from rfl]
    simp)

/-- C2: when the health check decodes to status `"healthy"` and the
`/next` and `/stats` responses decode, the demonstration run issues
exactly one GET `/health`, then exactly five GET `/next` one at a time
in strict sequence — printing each result tagged with its 1-based
request index 1 through 5 — then exactly one GET `/stats`, in that
order (the request trace is this exact sequential list; the embedding
awaits each call before the next, so no requests are in flight
concurrently), and exits 0. -/
theorem demo_request_sequence (env : Option String) (server : Server)
    (jh : Json) (rh : HealthResponse) (jn : Json) (rn : EndpointResponse)
    (js : Json) (rs : StatsResponse)
    (hh : server (get_api_url env ++ "/health") = .jsonBody jh)
    (hdh : decodeHealthResponse jh = some rh)
    (hst : rh.status = "healthy")
    (hn : server (get_api_url env ++ "/next") = .jsonBody jn)
    (hdn : decodeEndpointResponse jn = some rn)
    (hs : server (get_api_url env ++ "/stats") = .jsonBody js)
    (hds : decodeStatsResponse js = some rs) :
    (runDemo (fun _ => env) server).requests =
      (get_api_url env ++ "/health") ::
        (List.replicate 5 (get_api_url env ++ "/next") ++ [get_api_url env ++ "/stats"]) ∧
    (runDemo (fun _ => env) server).stdout =
      [healthDebugLine rh, "Server is healthy!", "\n=== Pool Example ===\n",
       requestLine 1 rn.endpoint, requestLine 2 rn.endpoint, requestLine 3 rn.endpoint,
       requestLine 4 rn.endpoint, requestLine 5 rn.endpoint,
       "\n=== Stats Example ===\n"] ++ statsLines rs ++ finalLines ∧
    (runDemo (fun _ => env) server).exitCode = 0 := by
  have hch : check_health env server =
      ⟨[get_api_url env ++ "/health"], [healthDebugLine rh], .ok true⟩ := by
    simp only [check_health, hh, hdh]
    simp [hst]
  refine ⟨?_, ?_, ?_⟩ <;>
    simp [runDemo, hch, mainHealthy, pool_example, poolLoop, get_next_endpoint, hn, hdn,
      stats_example, get_stats, hs, hds, List.replicate]

/-- The spec's example scenario: a healthy pool-manager answering all
three paths at the default base URL. -/
def mockServer : Server := fun url =>
  if url = "http://localhost:8080/health" then .jsonBody (.obj [("status", .str "healthy")])
  else if url = "http://localhost:8080/next" then
    .jsonBody (.obj [("endpoint", .str "ws://host:9001/abc")])
  else if url = "http://localhost:8080/stats" then
    .jsonBody (.obj
      [("mode", .str "pool"), ("total_instances", .num ((3 : Int) : Rat)),
       ("healthy_instances", .num ((3 : Int) : Rat)), ("active_connections", .num ((1 : Int) : Rat)),
       ("total_connections", .num ((42 : Int) : Rat))])
  else .transportFail

/-- C2 witness: against the healthy mock server the trace is one
`/health`, five `/next`, one `/stats`, and the exit code is 0. -/
theorem demo_request_sequence_witness :
    (runDemo (fun _ => none) mockServer).requests =
      "http://localhost:8080/health" ::
        (List.replicate 5 "http://localhost:8080/next" ++ ["http://localhost:8080/stats"]) ∧
    (runDemo (fun _ => none) mockServer).exitCode = 0 :=
  let h := demo_request_sequence none mockServer
    (.obj [("status", .str "healthy")]) ⟨"healthy"⟩
    (.obj [("endpoint", .str "ws://host:9001/abc")]) ⟨"ws://host:9001/abc"⟩
    (.obj [("mode", .str "pool"), ("total_instances", .num ((3 : Int) : Rat)),
       ("healthy_instances", .num ((3 : Int) : Rat)), ("active_connections", .num ((1 : Int) : Rat)),
       ("total_connections", .num ((42 : Int) : Rat))]) ⟨"pool", 3, 3, 1, 42⟩
    rfl rfl rfl rfl rfl rfl rfl
  ⟨h.1, h.2.2⟩

/-- An environment in which `CAMOUFOX_API` is unset for the first two
reads (the resolution in `main` and the one inside `check_health`) and
is then set to `http://changed` before the `/next` and `/stats` calls. -/
def envChanged : Nat → Option String := fun k => if k < 2 then none else some "http://changed"

/-- A server cooperating with `envChanged`: healthy at the default base,
and answering `/next` and `/stats` at the changed base. -/
def serverChanged : Server := fun url =>
  if url = "http://localhost:8080/health" then .jsonBody (.obj [("status", .str "healthy")])
  else if url = "http://changed/next" then .jsonBody (.obj [("endpoint", .str "ws://x")])
  else if url = "http://changed/stats" then
    .jsonBody (.obj
      [("mode", .str "pool"), ("total_instances", .num ((1 : Int) : Rat)),
       ("healthy_instances", .num ((1 : Int) : Rat)), ("active_connections", .num ((0 : Int) : Rat)),
       ("total_connections", .num ((0 : Int) : Rat))])
  else .transportFail

/-- C7 counterexample: the base address is NOT resolved exactly once at
startup.  With `CAMOUFOX_API` unset at startup (resolving to the
default base) and set to `http://changed` after the health check, the
run's second request goes to `http://changed/next`, which differs from
the startup-resolved `{default base}/next` — so a change to the
environment after startup does affect a request URL. -/
theorem env_change_affects_requests :
    get_api_url (envChanged 0) = "http://localhost:8080" ∧
    (runDemo envChanged serverChanged).requests.get? 1 = some "http://changed/next" ∧
    "http://changed/next" ≠ get_api_url (envChanged 0) ++ "/next" :=
  ⟨rfl, by decide, by decide⟩

/-- `poolLoop` only ever requests `{base}/next` (constant environment). -/
theorem poolLoop_requests_next (env : Option String) (server : Server) :
    ∀ (n i ri : Nat) (r : String), r ∈ (poolLoop (fun _ => env) server i n ri).1 →
      r = get_api_url env ++ "/next" := by
  intro n
  induction n with
  | zero => intro i ri r hr; simp [poolLoop] at hr
  | succ n ih =>
      intro i ri r hr
      rcases hres : (get_next_endpoint env server).result with e | ep
      · simp only [poolLoop, hres] at hr
        rw [get_next_endpoint_requests] at hr
        simpa using hr
      · simp only [poolLoop, hres] at hr
        rw [get_next_endpoint_requests] at hr
        simp only [List.cons_append, List.nil_append, List.mem_cons] at hr
        rcases hr with h | h
        · exact h
        · exact ih (i + 1) (ri + 1) r h

/-- `stats_example` issues exactly the one `/stats` request. -/
theorem stats_example_requests (env : Option String) (server : Server) :
    (stats_example env server).1 = [get_api_url env ++ "/stats"] := by
  simp only [stats_example]
  rcases hres : (get_stats env server).result with e | s <;>
    simp [hres, get_stats_requests]

/-- C7 amended: the base address is resolved from `CAMOUFOX_API` (with
the default) at the start of every operation rather than once at
startup; when the environment is unchanged for the whole run, every
request URL is the one resolved base followed by `/health`, `/next` or
`/stats`, so all requests do use the same base value. -/
theorem base_url_consistent_when_env_constant (env : Option String) (server : Server) :
    ∀ r ∈ (runDemo (fun _ => env) server).requests,
      r = get_api_url env ++ "/health" ∨ r = get_api_url env ++ "/next" ∨
      r = get_api_url env ++ "/stats" := by
  intro r hr
  simp only [runDemo] at hr
  rcases hres : (check_health env server).result with e | b
  · simp only [hres] at hr
    rw [check_health_requests] at hr
    simp at hr
    exact Or.inl hr
  · cases b
    · simp only [hres] at hr
      rw [check_health_requests] at hr
      simp at hr
      exact Or.inl hr
    · simp only [hres, mainHealthy] at hr
      rcases hp : (pool_example (fun _ => env) server 2).2.2 with e | u
      · simp only [hp] at hr
        rw [check_health_requests] at hr
        simp only [List.mem_append, List.mem_singleton] at hr
        rcases hr with h | h
        · exact Or.inl h
        · exact Or.inr (Or.inl (poolLoop_requests_next env server 5 1 2 r h))
      · rcases hs : (stats_example ((fun _ => env) 7) server).2.2 with e | u2 <;>
          · simp only [hp, hs] at hr
            rw [check_health_requests, stats_example_requests] at hr
            simp only [List.mem_append, List.mem_singleton] at hr
            rcases hr with (h | h) | h
            · exact Or.inl h
            · exact Or.inr (Or.inl (poolLoop_requests_next env server 5 1 2 r h))
            · exact Or.inr (Or.inr h)

/-- C7 amended witness: in the constant-environment mock run, the
`/next` request URL is built from the single resolved default base. -/
theorem base_url_consistent_when_env_constant_witness :
    "http://localhost:8080/next" = get_api_url none ++ "/health" ∨
    "http://localhost:8080/next" = get_api_url none ++ "/next" ∨
    "http://localhost:8080/next" = get_api_url none ++ "/stats" :=
  base_url_consistent_when_env_constant none mockServer "http://localhost:8080/next" (by decide)

/-- C9: for all three response decoders, unknown extra fields are
silently ignored — decoding an object equals decoding its restriction
to the expected keys — and, on an object with pairwise-distinct keys,
decoding succeeds exactly when every expected field is present with a
value its field decoder accepts; so a decode failure is always a
missing or wrongly-typed expected field and never caused by extra
fields. -/
theorem decoders_ignore_unknown_fields (fields : List (String × Json))
    (hnd : (fields.map Prod.fst).Nodup) :
    (decodeHealthResponse (.obj fields) =
       decodeHealthResponse (.obj (fields.filter (fun q => q.1 == "status")))) ∧
    (decodeEndpointResponse (.obj fields) =
       decodeEndpointResponse (.obj (fields.filter (fun q => q.1 == "endpoint")))) ∧
    (decodeStatsResponse (.obj fields) =
       decodeStatsResponse (.obj (fields.filter (fun q =>
         q.1 == "mode" || q.1 == "total_instances" || q.1 == "healthy_instances" ||
         q.1 == "active_connections" || q.1 == "total_connections")))) ∧
    ((decodeHealthResponse (.obj fields)).isSome ↔
       (∃ j, lookupField fields "status" = some j ∧ (decodeString j).isSome)) ∧
    ((decodeEndpointResponse (.obj fields)).isSome ↔
       (∃ j, lookupField fields "endpoint" = some j ∧ (decodeString j).isSome)) ∧
    ((decodeStatsResponse (.obj fields)).isSome ↔
       ((∃ j, lookupField fields "mode" = some j ∧ (decodeString j).isSome) ∧
        (∃ j, lookupField fields "total_instances" = some j ∧ (decodeI32 j).isSome) ∧
        (∃ j, lookupField fields "healthy_instances" = some j ∧ (decodeI32 j).isSome) ∧
        (∃ j, lookupField fields "active_connections" = some j ∧ (decodeI32 j).isSome) ∧
        (∃ j, lookupField fields "total_connections" = some j ∧ (decodeI32 j).isSome))) := by
  refine ⟨?_, ?_, ?_, ?_, ?_, ?_⟩
  · simp only [decodeHealthResponse,
      getUnique_filter_of_mem fields (fun k => k == "status") "status" rfl]
  · simp only [decodeEndpointResponse,
      getUnique_filter_of_mem fields (fun k => k == "endpoint") "endpoint" rfl]
  · have f1 := getUnique_filter_of_mem fields (fun k => k == "mode" || k == "total_instances" ||
        k == "healthy_instances" || k == "active_connections" || k == "total_connections") "mode" rfl
    have f2 := getUnique_filter_of_mem fields (fun k => k == "mode" || k == "total_instances" ||
        k == "healthy_instances" || k == "active_connections" || k == "total_connections")
        "total_instances" rfl
    have f3 := getUnique_filter_of_mem fields (fun k => k == "mode" || k == "total_instances" ||
        k == "healthy_instances" || k == "active_connections" || k == "total_connections")
        "healthy_instances" rfl
    have f4 := getUnique_filter_of_mem fields (fun k => k == "mode" || k == "total_instances" ||
        k == "healthy_instances" || k == "active_connections" || k == "total_connections")
        "active_connections" rfl
    have f5 := getUnique_filter_of_mem fields (fun k => k == "mode" || k == "total_instances" ||
        k == "healthy_instances" || k == "active_connections" || k == "total_connections")
        "total_connections" rfl
    simp only [decodeStatsResponse, f1, f2, f3, f4, f5]
  · simp only [decodeHealthResponse, Option.isSome_map']
    rw [bind_isSome_iff, getUnique_eq_lookupField fields "status" hnd]
  · simp only [decodeEndpointResponse, Option.isSome_map']
    rw [bind_isSome_iff, getUnique_eq_lookupField fields "endpoint" hnd]
  · have e1 := (bind_isSome_iff (lookupField fields "mode") decodeString).symm
    have e2 := (bind_isSome_iff (lookupField fields "total_instances") decodeI32).symm
    have e3 := (bind_isSome_iff (lookupField fields "healthy_instances") decodeI32).symm
    have e4 := (bind_isSome_iff (lookupField fields "active_connections") decodeI32).symm
    have e5 := (bind_isSome_iff (lookupField fields "total_connections") decodeI32).symm
    rw [e1, e2, e3, e4, e5]
    simp only [decodeStatsResponse,
      getUnique_eq_lookupField fields "mode" hnd,
      getUnique_eq_lookupField fields "total_instances" hnd,
      getUnique_eq_lookupField fields "healthy_instances" hnd,
      getUnique_eq_lookupField fields "active_connections" hnd,
      getUnique_eq_lookupField fields "total_connections" hnd]
    generalize (lookupField fields "mode").bind decodeString = o1
    generalize (lookupField fields "total_instances").bind decodeI32 = o2
    generalize (lookupField fields "healthy_instances").bind decodeI32 = o3
    generalize (lookupField fields "active_connections").bind decodeI32 = o4
    generalize (lookupField fields "total_connections").bind decodeI32 = o5
    cases o1 <;> cases o2 <;> cases o3 <;> cases o4 <;> cases o5 <;> simp

/-- A response body with every expected field plus two unknown ones. -/
def paddedFields : List (String × Json) :=
  [("unknown_extra", .bool true), ("status", .str "healthy"), ("endpoint", .str "ws://a"),
   ("mode", .str "pool"), ("total_instances", .num ((2 : Int) : Rat)),
   ("healthy_instances", .num ((2 : Int) : Rat)), ("active_connections", .num ((0 : Int) : Rat)),
   ("total_connections", .num ((9 : Int) : Rat)), ("another_extra", .null)]

/-- C9 witness: an object carrying unknown fields alongside the expected
ones decodes successfully for both the health and the stats shape. -/
theorem decoders_ignore_unknown_fields_witness :
    (decodeHealthResponse (.obj paddedFields)).isSome = true ∧
    (decodeStatsResponse (.obj paddedFields)).isSome = true :=
  have h := decoders_ignore_unknown_fields paddedFields (by decide)
  ⟨h.2.2.2.1.mpr ⟨.str "healthy", rfl, rfl⟩,
   h.2.2.2.2.2.mpr ⟨⟨.str "pool", rfl, rfl⟩, ⟨.num ((2 : Int) : Rat), rfl, by decide⟩,
     ⟨.num ((2 : Int) : Rat), rfl, by decide⟩, ⟨.num ((0 : Int) : Rat), rfl, by decide⟩,
     ⟨.num ((9 : Int) : Rat), rfl, by decide⟩⟩⟩

/-- C10: the four numeric stats fields decode as 32-bit signed
integers: the field decoder accepts exactly the integer values in
`[-2^31, 2^31 - 1]` (a non-integer number or an out-of-range integer is
refused); an accepted value is returned exactly, never truncated or
wrapped; and a `/stats` response whose `total_instances` carries a
non-integer or out-of-range number makes `get_stats` fail with a
`DecodeError`. -/
theorem i32_decode_rejects_out_of_range :
    (∀ q : Rat, (decodeI32 (.num q)).isSome ↔
       (q.den = 1 ∧ -(2 ^ 31) ≤ q.num ∧ q.num ≤ 2 ^ 31 - 1)) ∧
    (∀ (q : Rat) (n : Int), decodeI32 (.num q) = some n → n = q.num ∧ q = (n : Rat)) ∧
    (∀ (env : Option String) (server : Server) (fields : List (String × Json)) (q : Rat),
       server (get_api_url env ++ "/stats") = .jsonBody (.obj fields) →
       getUnique fields "total_instances" = some (.num q) →
       ¬(q.den = 1 ∧ -(2 ^ 31) ≤ q.num ∧ q.num ≤ 2 ^ 31 - 1) →
       (get_stats env server).result = .error .decodeError) := by
  refine ⟨?_, ?_, ?_⟩
  · intro q
    simp only [decodeI32]
    split
    · simpa using ‹q.den = 1 ∧ -(2 ^ 31) ≤ q.num ∧ q.num ≤ 2 ^ 31 - 1›
    · simpa using ‹¬(q.den = 1 ∧ -(2 ^ 31) ≤ q.num ∧ q.num ≤ 2 ^ 31 - 1)›
  · intro q n h
    simp only [decodeI32] at h
    by_cases hc : q.den = 1 ∧ -(2 ^ 31) ≤ q.num ∧ q.num ≤ 2 ^ 31 - 1
    · rw [if_pos hc] at h
      have hn : q.num = n := Option.some_injective _ h
      exact ⟨hn.symm, by rw [← hn]; exact (Rat.coe_int_num_of_den_eq_one hc.1).symm⟩
    · rw [if_neg hc] at h
      exact absurd h (by simp)
  · intro env server fields q hj hget hbad
    have ht : (getUnique fields "total_instances").bind decodeI32 = none := by
      rw [hget]
      show decodeI32 (.num q) = none
      simp only [decodeI32]
      exact if_neg hbad
    have hdec : decodeStatsResponse (.obj fields) = none := by
      simp only [decodeStatsResponse]
      cases hm : (getUnique fields "mode").bind decodeString with
      | none => rfl
      | some m => simp [hm, ht]
    simp only [get_stats, hj, hdec]
